import Mathlib

/-!
Shallow embedding of the Automata billing/entitlement core:
the plan-limit catalog and quota check from the dashboard helper script
(`src/unnamed/part_000`), and the SQL functions of
`src/database/migration_appsumo_plans.sql` (usage tracking, AppSumo code
redemption and code checking), with theorems checking the specification's
claims against these definitions.

Modelling conventions: JS numbers and SQL INTEGERs are `Int`; JS
`Math.round` on the exact rational value is `jsRound` (floating point is
not modelled; all quantities involved are small integers and exact
rationals); nullable columns and absent JS fields are `Option`; the
mutable store touched by a SQL function is passed and returned
explicitly. `Number.prototype.toLocaleString` is rendered as the plain
decimal string. Timestamp bookkeeping columns (`created_at`,
`updated_at`) of `usage_tracking` are omitted; `redeemed_at` and
`plan_changed_at` are kept as abstract `Nat` instants supplied by the
caller as `now`.
-/

/-- The numeric limit keys of the plan catalog that `checkLimit` can be
asked about (`projects`, `automations`, `customers`, `emails_monthly`,
`sms_monthly`, `ai_analyses`, `team_members`). -/
inductive LimitKey
  | projects
  | automations
  | customers
  | emails_monthly
  | sms_monthly
  | ai_analyses
  | team_members
deriving DecidableEq, Repr

/-- One entry of the `PLAN_LIMITS` catalog of `src/unnamed/part_000`.
Display-only fields (`name`, `badge`, prices) and boolean feature flags are
kept alongside the numeric limits; fields that only some entries carry are
`Option` / default-`false`. -/
structure PlanLimits where
  name : String
  badge : Option String := none
  price_monthly : Option Int := none
  price_annual : Option Int := none
  projects : Int
  automations : Int
  customers : Int
  emails_monthly : Int
  sms_monthly : Int
  ai_analyses : Int
  team_members : Int
  api_access : Bool
  webhooks : Bool
  priority_support : Bool
  dedicated_support : Bool := false
  sla : Bool := false
  white_label : Bool := false
deriving DecidableEq, Repr

/-- Numeric-limit lookup `limits[limitType]` for the keys `checkLimit`
uses. -/
def PlanLimits.get (l : PlanLimits) : LimitKey → Int
  | .projects => l.projects
  | .automations => l.automations
  | .customers => l.customers
  | .emails_monthly => l.emails_monthly
  | .sms_monthly => l.sms_monthly
  | .ai_analyses => l.ai_analyses
  | .team_members => l.team_members

/-- `PLAN_LIMITS.free`. -/
def PLAN_LIMITS_free : PlanLimits :=
  { name := "Free"
    projects := 1
    automations := 3
    customers := 100
    emails_monthly := 500
    sms_monthly := 0
    ai_analyses := 10
    team_members := 1
    api_access := false
    webhooks := false
    priority_support := false }

/-- `PLAN_LIMITS.subscription.growth`. -/
def PLAN_LIMITS_growth : PlanLimits :=
  { name := "Growth"
    price_monthly := some 39
    price_annual := some 31
    projects := 5
    automations := 15
    customers := 2000
    emails_monthly := 5000
    sms_monthly := 0
    ai_analyses := 50
    team_members := 3
    api_access := false
    webhooks := false
    priority_support := false }

/-- `PLAN_LIMITS.subscription.business`. -/
def PLAN_LIMITS_business : PlanLimits :=
  { name := "Business"
    price_monthly := some 99
    price_annual := some 79
    projects := 15
    automations := 50
    customers := 10000
    emails_monthly := 25000
    sms_monthly := 0
    ai_analyses := 200
    team_members := 10
    api_access := true
    webhooks := true
    priority_support := true }

/-- `PLAN_LIMITS.subscription.enterprise` (`-1` marks unlimited). -/
def PLAN_LIMITS_enterprise : PlanLimits :=
  { name := "Enterprise"
    price_monthly := some 249
    price_annual := some 199
    projects := -1
    automations := -1
    customers := 50000
    emails_monthly := 100000
    sms_monthly := 1000
    ai_analyses := -1
    team_members := -1
    api_access := true
    webhooks := true
    priority_support := true
    dedicated_support := true
    sla := true }

/-- `PLAN_LIMITS.appsumo[1]`. -/
def PLAN_LIMITS_appsumo1 : PlanLimits :=
  { name := "Lifetime Tier 1"
    badge := some "AppSumo"
    projects := 3
    automations := 10
    customers := 1000
    emails_monthly := 3000
    sms_monthly := 0
    ai_analyses := 30
    team_members := 2
    api_access := false
    webhooks := false
    priority_support := false }

/-- `PLAN_LIMITS.appsumo[2]`. -/
def PLAN_LIMITS_appsumo2 : PlanLimits :=
  { name := "Lifetime Tier 2"
    badge := some "AppSumo"
    projects := 10
    automations := 30
    customers := 5000
    emails_monthly := 15000
    sms_monthly := 0
    ai_analyses := 100
    team_members := 5
    api_access := true
    webhooks := false
    priority_support := true }

/-- `PLAN_LIMITS.appsumo[3]` (`automations = -1` is unlimited). -/
def PLAN_LIMITS_appsumo3 : PlanLimits :=
  { name := "Lifetime Tier 3"
    badge := some "AppSumo"
    projects := 25
    automations := -1
    customers := 15000
    emails_monthly := 50000
    sms_monthly := 0
    ai_analyses := 300
    team_members := 10
    api_access := true
    webhooks := true
    priority_support := true
    white_label := true }

/-- `PLAN_LIMITS.appsumo[t]`: defined for `t = 1, 2, 3`, `undefined`
(`none`) otherwise, mirroring the JS object indexing. -/
def appsumoLookup : Int → Option PlanLimits
  | 1 => some PLAN_LIMITS_appsumo1
  | 2 => some PLAN_LIMITS_appsumo2
  | 3 => some PLAN_LIMITS_appsumo3
  | _ => none

/-- `PLAN_LIMITS.subscription[s]`: defined for the three tier names,
`undefined` (`none`) otherwise. -/
def subscriptionLookup : String → Option PlanLimits
  | "growth" => some PLAN_LIMITS_growth
  | "business" => some PLAN_LIMITS_business
  | "enterprise" => some PLAN_LIMITS_enterprise
  | _ => none

/-- A partial limit override, as stored in the organization's
`plan_limits_override` JSONB column and spread over the base limits by
`getOrgLimits`. Keys absent from the override are `none`. -/
structure LimitsOverride where
  projects : Option Int := none
  automations : Option Int := none
  customers : Option Int := none
  emails_monthly : Option Int := none
  sms_monthly : Option Int := none
  ai_analyses : Option Int := none
  team_members : Option Int := none
  api_access : Option Bool := none
  webhooks : Option Bool := none
  priority_support : Option Bool := none
deriving DecidableEq, Repr

/-- Numeric-key lookup into an override map. -/
def LimitsOverride.get (ov : LimitsOverride) : LimitKey → Option Int
  | .projects => ov.projects
  | .automations => ov.automations
  | .customers => ov.customers
  | .emails_monthly => ov.emails_monthly
  | .sms_monthly => ov.sms_monthly
  | .ai_analyses => ov.ai_analyses
  | .team_members => ov.team_members

/-- The JS spread `{ ...base, ...override }`: every key present in the
override takes the override's value, every other key keeps the base
value. Builds a fresh record; the base (in particular the catalog
entries) is not modified. -/
def mergeOverride (base : PlanLimits) (ov : LimitsOverride) : PlanLimits :=
  { base with
    projects := ov.projects.getD base.projects
    automations := ov.automations.getD base.automations
    customers := ov.customers.getD base.customers
    emails_monthly := ov.emails_monthly.getD base.emails_monthly
    sms_monthly := ov.sms_monthly.getD base.sms_monthly
    ai_analyses := ov.ai_analyses.getD base.ai_analyses
    team_members := ov.team_members.getD base.team_members
    api_access := ov.api_access.getD base.api_access
    webhooks := ov.webhooks.getD base.webhooks
    priority_support := ov.priority_support.getD base.priority_support }

/-- An organization row, restricted to the plan columns the embedded code
reads and writes (`migration_appsumo_plans.sql` section 1). -/
structure Organization where
  id : Nat
  plan_type : String
  appsumo_tier : Option Int
  appsumo_codes : List String
  subscription_tier : Option String
  stripe_customer_id : Option String
  plan_limits_override : Option LimitsOverride
  plan_changed_at : Option Nat
deriving DecidableEq, Repr

/-- `getPlanLimits(org)` of `src/unnamed/part_000`: base plan limits
without overrides. A null org or an unrecognized `plan_type` gives the
free limits; an `appsumo_lifetime` org with a tier outside 1..3 (or no
tier) falls back to `PLAN_LIMITS.appsumo[1]`; a `subscription` org with an
unrecognized or missing tier falls back to growth. Total by construction:
it never throws. -/
def getPlanLimits : Option Organization → PlanLimits
  | none => PLAN_LIMITS_free
  | some org =>
    if org.plan_type = "appsumo_lifetime" then
      match org.appsumo_tier with
      | some t => (appsumoLookup t).getD PLAN_LIMITS_appsumo1
      | none => PLAN_LIMITS_appsumo1
    else if org.plan_type = "subscription" then
      match org.subscription_tier with
      | some s => (subscriptionLookup s).getD PLAN_LIMITS_growth
      | none => PLAN_LIMITS_growth
    else
      PLAN_LIMITS_free

/-- `getOrgLimits(org)` of `src/unnamed/part_000`: base plan limits with
the organization's `plan_limits_override` spread on top when present. -/
def getOrgLimits : Option Organization → PlanLimits
  | none => PLAN_LIMITS_free
  | some org =>
    match org.plan_limits_override with
    | some ov => mergeOverride (getPlanLimits (some org)) ov
    | none => getPlanLimits (some org)

/-- JS `Math.round` on an exact rational: round half up,
`⌊q + 1/2⌋`. -/
def jsRound (q : ℚ) : Int := ⌊q + 1 / 2⌋

/-- `getUsagePercent(used, limit)` of `src/unnamed/part_000`:
0 for the unlimited sentinel `-1`; for `limit = 0`, 100 when `used > 0`
and 0 otherwise; else `Math.round((used / limit) * 100)`. -/
def getUsagePercent (used limit : Int) : Int :=
  if limit = -1 then 0
  else if limit = 0 then (if used > 0 then 100 else 0)
  else jsRound ((used : ℚ) / (limit : ℚ) * 100)

/-- `formatLimit(value)`: `-1` renders as `Unlimited`, `0` as a dash,
anything else as its decimal string (`toLocaleString` modelled as the
plain decimal rendering). -/
def formatLimit (value : Int) : String :=
  if value = -1 then "Unlimited"
  else if value = 0 then "—"
  else toString value

/-- `formatLimitName(limitType)`: human-readable limit names. -/
def formatLimitName : LimitKey → String
  | .projects => "projects"
  | .automations => "automations"
  | .customers => "customers"
  | .emails_monthly => "monthly emails"
  | .sms_monthly => "monthly SMS"
  | .ai_analyses => "AI analyses"
  | .team_members => "team members"

/-- `getLimitMessage(limitType, limit, planType)`: the limit-exceeded
message, selected by plan type. -/
def getLimitMessage (limitType : LimitKey) (limit : Int) (planType : String) : String :=
  let name := formatLimitName limitType
  if planType = "appsumo_lifetime" then
    "You\x27ve reached your " ++ name ++ " limit (" ++ formatLimit limit ++
      "). Stack another AppSumo code or upgrade to a subscription for more capacity."
  else if planType = "subscription" then
    "You\x27ve reached your " ++ name ++ " limit (" ++ formatLimit limit ++
      "). Upgrade to a higher tier for more capacity."
  else
    "You\x27ve reached your " ++ name ++ " limit (" ++ formatLimit limit ++
      "). Upgrade to unlock more capacity."

/-- The object returned by `checkLimit`: fields that a branch does not
set are `none`, mirroring the absent JS object properties. -/
structure CheckResult where
  allowed : Bool
  message : Option String := none
  upgradeRequired : Option Bool := none
  warning : Option Bool := none
  current : Option Int := none
  limit : Option Int := none
deriving DecidableEq, Repr

/-- `checkLimit(org, usage, limitType, increment)` of
`src/unnamed/part_000`. The usage snapshot is a partial map; a missing
entry reads as 0 (`usage[limitType] || 0`). The unlimited sentinel
short-circuits to a bare `allowed`; exceeding the limit denies with a
plan-typed message and `current = currentUsage`; at 80–99 percent the
allowed result carries a warning; otherwise a plain allowed. The JS
default `increment = 1` is passed explicitly by callers here. -/
def checkLimit (org : Organization) (usage : LimitKey → Option Int)
    (limitType : LimitKey) (increment : Int) : CheckResult :=
  let limits := getOrgLimits (some org)
  let limit := limits.get limitType
  if limit = -1 then
    { allowed := true }
  else
    let currentUsage := (usage limitType).getD 0
    let newUsage := currentUsage + increment
    if newUsage > limit then
      { allowed := false
        message := some (getLimitMessage limitType limit org.plan_type)
        upgradeRequired := some true
        current := some currentUsage
        limit := some limit }
    else
      let percent := getUsagePercent newUsage limit
      if 80 ≤ percent ∧ percent < 100 then
        { allowed := true
          warning := some true
          message := some ("You\x27re at " ++ toString percent ++ "% of your " ++
            formatLimitName limitType ++ " limit.")
          current := some newUsage
          limit := some limit }
      else
        { allowed := true, current := some newUsage, limit := some limit }

/-- A row of the `appsumo_codes` table. -/
structure CodeRecord where
  id : Nat
  code : String
  tier : Int
  is_redeemed : Bool
  redeemed_by_org_id : Option Nat
  redeemed_at : Option Nat
  notes : Option String
deriving DecidableEq, Repr

/-- The slice of the database that `redeem_appsumo_code` and
`check_appsumo_code` touch: the `appsumo_codes` table and the one
organization row addressed by `org_id`. -/
structure Store where
  codes : List CodeRecord
  org : Organization
deriving DecidableEq, Repr

/-- `SELECT * FROM appsumo_codes WHERE code = c` (the `code` column is
UNIQUE, so the first match is the row). -/
def findCode (codes : List CodeRecord) (c : String) : Option CodeRecord :=
  codes.find? (fun r => r.code = c)

/-- Outcome of `redeem_appsumo_code`: the JSONB
`{success:false, error}` or `{success:true, tier, message}`. -/
inductive RedeemResult
  | failure (error : String)
  | success (tier : Int) (message : String)
deriving DecidableEq, Repr

/-- The tier of a successful redemption result, `none` on failure. -/
def RedeemResult.resultTier : RedeemResult → Option Int
  | .failure _ => none
  | .success t _ => some t

/-- `redeem_appsumo_code(org_id, code_to_redeem)` of
`migration_appsumo_plans.sql` section 7. Looks the code up (unknown →
`Invalid code`; already redeemed → `Code already redeemed`, both without
touching the store), computes the stacked tier
(`code.tier` when the org has no tier, else `LEAST(current + code.tier, 3)`),
marks the code row redeemed, and rewrites the organization row to
`plan_type = appsumo_lifetime` with the new tier, the code appended to
`appsumo_codes`, and `plan_changed_at = now`. -/
def redeem_appsumo_code (s : Store) (code_to_redeem : String) (now : Nat) :
    RedeemResult × Store :=
  match findCode s.codes code_to_redeem with
  | none => (.failure "Invalid code", s)
  | some code_record =>
    if code_record.is_redeemed then
      (.failure "Code already redeemed", s)
    else
      let current_tier := s.org.appsumo_tier
      let current_codes := s.org.appsumo_codes
      let new_tier : Int :=
        match current_tier with
        | none => code_record.tier
        | some t => min (t + code_record.tier) 3
      let codes1 := s.codes.map (fun r =>
        if r.id = code_record.id then
          { r with is_redeemed := true
                   redeemed_by_org_id := some s.org.id
                   redeemed_at := some now }
        else r)
      let org1 := { s.org with
        plan_type := "appsumo_lifetime"
        appsumo_tier := some new_tier
        appsumo_codes := current_codes ++ [code_to_redeem]
        plan_changed_at := some now }
      (.success new_tier
        ("Code redeemed successfully! Your plan has been upgraded to Tier " ++
          toString new_tier),
        { codes := codes1, org := org1 })

/-- Outcome of `check_appsumo_code`: the JSONB `{valid, tier?, error?}`. -/
structure CheckCodeResult where
  valid : Bool
  tier : Option Int := none
  error : Option String := none
deriving DecidableEq, Repr

/-- `check_appsumo_code(code_to_check)` of `migration_appsumo_plans.sql`
section 9. A pure lookup: unknown code → `{valid:false, error:"Code not
found"}`; already redeemed → `{valid:false, error:"Code already
redeemed"}`; otherwise `{valid:true, tier}`. The body contains no UPDATE,
so the store is returned unchanged. -/
def check_appsumo_code (s : Store) (code_to_check : String) :
    CheckCodeResult × Store :=
  match findCode s.codes code_to_check with
  | none => ({ valid := false, error := some "Code not found" }, s)
  | some code_record =>
    if code_record.is_redeemed then
      ({ valid := false, error := some "Code already redeemed" }, s)
    else
      ({ valid := true, tier := some code_record.tier }, s)

/-- The view of a code lookup that `check_appsumo_code`'s result is meant
to expose: existence, and for an existing code its `is_redeemed` flag and
tier — no other row metadata. -/
def codeView (s : Store) (c : String) : Option (Bool × Int) :=
  (findCode s.codes c).map (fun r => (r.is_redeemed, r.tier))

/-- The current usage-tracking row for one organization
(`usage_tracking` table), minus the timestamp bookkeeping columns. -/
structure UsageRecord where
  organization_id : Nat
  emails_sent : Int
  sms_sent : Int
  ai_analyses_used : Int
  projects_count : Int
  automations_count : Int
  customers_count : Int
deriving DecidableEq, Repr

/-- A freshly inserted `usage_tracking` row: all counters at their
DEFAULT 0. -/
def emptyUsageRecord (org_id : Nat) : UsageRecord :=
  { organization_id := org_id
    emails_sent := 0
    sms_sent := 0
    ai_analyses_used := 0
    projects_count := 0
    automations_count := 0
    customers_count := 0 }

/-- `get_current_usage(org_id)` of `migration_appsumo_plans.sql`
section 4, on the current month's slot for this organization: return the
existing row, or insert and return a fresh all-zero row. -/
def get_current_usage (org_id : Nat) (s : Option UsageRecord) :
    UsageRecord × Option UsageRecord :=
  match s with
  | some r => (r, some r)
  | none =>
    let r := emptyUsageRecord org_id
    (r, some r)

/-- `increment_usage(org_id, usage_type, amount)` of
`migration_appsumo_plans.sql` section 5: ensure the current period row
exists, add `amount` to the counter selected by `usage_type`
(`emails` / `sms` / `ai_analyses`; any other value matches no branch of
the IF/ELSIF chain and updates nothing), and return TRUE. -/
def increment_usage (org_id : Nat) (usage_type : String) (amount : Int)
    (s : Option UsageRecord) : Bool × Option UsageRecord :=
  let s1 := (get_current_usage org_id s).2
  let s2 :=
    match s1 with
    | none => none
    | some r =>
      if usage_type = "emails" then
        some { r with emails_sent := r.emails_sent + amount }
      else if usage_type = "sms" then
        some { r with sms_sent := r.sms_sent + amount }
      else if usage_type = "ai_analyses" then
        some { r with ai_analyses_used := r.ai_analyses_used + amount }
      else
        some r
  (true, s2)

/-- Modelled from the spec (section 3 data-model invariant; no
corresponding constraint exists in the SQL source): exactly one of
`subscription_tier` and `appsumo_tier` is non-null, and only when
`plan_type` matches correspondingly. -/
def orgInvariant (o : Organization) : Bool :=
  (o.subscription_tier.isSome != o.appsumo_tier.isSome) &&
  (!o.subscription_tier.isSome || o.plan_type = "subscription") &&
  (!o.appsumo_tier.isSome || o.plan_type = "appsumo_lifetime")

/-- Rounding helper: `jsRound` of an integer-over-natural quotient is an
integer floor division, which the kernel can evaluate. -/
theorem jsRound_intCast_div_natCast (n : Int) (d : Nat) (hd : d ≠ 0) :
    jsRound ((n : ℚ) / (d : ℚ)) = (2 * n + (d : Int)) / ((2 * d : ℕ) : Int) := by
  unfold jsRound
  rw [← Rat.floor_intCast_div_natCast (2 * n + (d : Int)) (2 * d)]
  congr 1
  have hd' : (d : ℚ) ≠ 0 := Nat.cast_ne_zero.mpr hd
  push_cast
  field_simp
  ring

/-- `getUsagePercent` as pure integer arithmetic, so concrete instances
can be settled by `decide`. -/
theorem getUsagePercent_eval (used limit : Int) :
    getUsagePercent used limit =
      if limit = -1 then 0
      else if limit = 0 then (if used > 0 then 100 else 0)
      else (2 * (if limit < 0 then -(used * 100) else used * 100) + (limit.natAbs : Int)) /
            ((2 * limit.natAbs : ℕ) : Int) := by
  unfold getUsagePercent
  split
  · rfl
  · split
    · rfl
    · rename_i h1 h0
      have hl0 : (limit : ℚ) ≠ 0 := Int.cast_ne_zero.mpr h0
      have habs : ((limit.natAbs : ℕ) : ℚ) = |(limit : ℚ)| :=
        (Nat.cast_natAbs limit).trans Int.cast_abs
      have hq : (used : ℚ) / (limit : ℚ) * 100 =
          ((if limit < 0 then -(used * 100) else used * 100 : Int) : ℚ) /
            ((limit.natAbs : ℕ) : ℚ) := by
        rw [habs]
        rcases lt_or_gt_of_ne h0 with hl | hl
        · have hcast : (limit : ℚ) < 0 := by exact_mod_cast hl
          rw [if_pos hl, abs_of_neg hcast]
          push_cast
          field_simp
        · have hcast : (0 : ℚ) < (limit : ℚ) := by exact_mod_cast hl
          rw [if_neg (not_lt.mpr hl.le), abs_of_pos hcast]
          push_cast
          field_simp
      have hd : limit.natAbs ≠ 0 := Int.natAbs_ne_zero.mpr h0
      rw [hq, jsRound_intCast_div_natCast _ _ hd]

/-- Shallow merge resolves key-by-key: override wins when present,
otherwise the base value is kept. -/
theorem mergeOverride_get (b : PlanLimits) (ov : LimitsOverride) (k : LimitKey) :
    (mergeOverride b ov).get k = (ov.get k).getD (b.get k) := by
  cases k <;> rfl

/-- Fixture: an organization on the free plan with no tiers. -/
def orgFreeNoTier : Organization :=
  { id := 1
    plan_type := "free"
    appsumo_tier := none
    appsumo_codes := []
    subscription_tier := none
    stripe_customer_id := none
    plan_limits_override := none
    plan_changed_at := none }

/-- Fixture: an AppSumo lifetime organization at tier `t`. -/
def orgAppsumoTier (t : Int) : Organization :=
  { id := 2
    plan_type := "appsumo_lifetime"
    appsumo_tier := some t
    appsumo_codes := ["AUTOMATA-TEST-T1-001"]
    subscription_tier := none
    stripe_customer_id := none
    plan_limits_override := none
    plan_changed_at := some 10 }

/-- Fixture: an unredeemed tier-1 code row (one of the sample rows the
migration inserts). -/
def codeT1 : CodeRecord :=
  { id := 11
    code := "AUTOMATA-TEST-T1-001"
    tier := 1
    is_redeemed := false
    redeemed_by_org_id := none
    redeemed_at := none
    notes := some "Test Tier 1 code" }

/-- Fixture: an unredeemed tier-2 code row. -/
def codeT2 : CodeRecord :=
  { id := 12
    code := "AUTOMATA-TEST-T2-001"
    tier := 2
    is_redeemed := false
    redeemed_by_org_id := none
    redeemed_at := none
    notes := some "Test Tier 2 code" }

/-- C1: redeeming an existing, unredeemed code succeeds with resulting
tier equal to the code's tier when the organization's `appsumo_tier` is
null, and `min(current appsumo_tier + code tier, 3)` otherwise. -/
theorem redeem_stacking (s : Store) (c : String) (now : Nat) (r : CodeRecord)
    (hfind : findCode s.codes c = some r) (hunred : r.is_redeemed = false) :
    (redeem_appsumo_code s c now).1.resultTier =
      some (match s.org.appsumo_tier with
            | none => r.tier
            | some t => min (t + r.tier) 3) := by
  simp [redeem_appsumo_code, hfind, hunred, RedeemResult.resultTier]

/-- C1 witness: tier 1 plus a tier-2 code gives tier 3; tier 2 plus a
tier-2 code caps at tier 3; no prior tier plus a tier-1 code gives
tier 1. -/
theorem redeem_stacking_witness :
    (redeem_appsumo_code { codes := [codeT2], org := orgAppsumoTier 1 }
        "AUTOMATA-TEST-T2-001" 0).1.resultTier = some 3 ∧
    (redeem_appsumo_code { codes := [codeT2], org := orgAppsumoTier 2 }
        "AUTOMATA-TEST-T2-001" 0).1.resultTier = some 3 ∧
    (redeem_appsumo_code { codes := [codeT1], org := orgFreeNoTier }
        "AUTOMATA-TEST-T1-001" 0).1.resultTier = some 1 := by
  refine ⟨?_, ?_, ?_⟩
  · exact (redeem_stacking { codes := [codeT2], org := orgAppsumoTier 1 }
      "AUTOMATA-TEST-T2-001" 0 codeT2 (by decide) (by decide)).trans (by decide)
  · exact (redeem_stacking { codes := [codeT2], org := orgAppsumoTier 2 }
      "AUTOMATA-TEST-T2-001" 0 codeT2 (by decide) (by decide)).trans (by decide)
  · exact (redeem_stacking { codes := [codeT1], org := orgFreeNoTier }
      "AUTOMATA-TEST-T1-001" 0 codeT1 (by decide) (by decide)).trans (by decide)

/-- C5: a redemption of a nonexistent code fails with `Invalid code`, and
of an already-redeemed code with `Code already redeemed`; in both failure
cases the returned store (code rows and organization alike) is exactly
the input store. -/
theorem redeem_failures_frame (s : Store) (c : String) (now : Nat) :
    (findCode s.codes c = none →
      redeem_appsumo_code s c now = (.failure "Invalid code", s)) ∧
    (∀ r : CodeRecord, findCode s.codes c = some r → r.is_redeemed = true →
      redeem_appsumo_code s c now = (.failure "Code already redeemed", s)) := by
  constructor
  · intro h
    simp [redeem_appsumo_code, h]
  · intro r h hr
    simp [redeem_appsumo_code, h, hr]

/-- C5 witness: concrete invalid-code and already-redeemed redemptions
leave a concrete store untouched. -/
theorem redeem_failures_frame_witness :
    redeem_appsumo_code { codes := [codeT1], org := orgFreeNoTier } "NO-SUCH-CODE" 3 =
      (.failure "Invalid code", { codes := [codeT1], org := orgFreeNoTier }) ∧
    redeem_appsumo_code
        { codes := [{ codeT1 with is_redeemed := true, redeemed_by_org_id := some 9 }],
          org := orgFreeNoTier } "AUTOMATA-TEST-T1-001" 3 =
      (.failure "Code already redeemed",
        { codes := [{ codeT1 with is_redeemed := true, redeemed_by_org_id := some 9 }],
          org := orgFreeNoTier }) := by
  constructor
  · exact (redeem_failures_frame { codes := [codeT1], org := orgFreeNoTier }
      "NO-SUCH-CODE" 3).1 (by decide)
  · exact (redeem_failures_frame
      { codes := [{ codeT1 with is_redeemed := true, redeemed_by_org_id := some 9 }],
        org := orgFreeNoTier } "AUTOMATA-TEST-T1-001" 3).2
      { codeT1 with is_redeemed := true, redeemed_by_org_id := some 9 } (by decide) (by decide)

/-- C9: `increment_usage` with a counter kind other than `emails`, `sms`
and `ai_analyses` returns TRUE (it does not throw) and leaves the
ensured current-period record exactly as `get_current_usage` leaves it:
no counter moves; in particular an existing record is returned
unchanged. -/
theorem increment_usage_unknown_noop (org_id : Nat) (usage_type : String)
    (amount : Int) (s : Option UsageRecord)
    (h1 : usage_type ≠ "emails") (h2 : usage_type ≠ "sms")
    (h3 : usage_type ≠ "ai_analyses") :
    increment_usage org_id usage_type amount s = (true, (get_current_usage org_id s).2) ∧
    ∀ r : UsageRecord, s = some r →
      increment_usage org_id usage_type amount s = (true, some r) := by
  constructor
  · cases s <;> simp [increment_usage, get_current_usage, h1, h2, h3]
  · rintro r rfl
    simp [increment_usage, get_current_usage, h1, h2, h3]

/-- C9 witness: a concrete unknown kind (`projects`) on a concrete
nonzero record changes nothing and returns TRUE. -/
theorem increment_usage_unknown_noop_witness :
    increment_usage 1 "projects" 5
        (some { organization_id := 1, emails_sent := 4, sms_sent := 2,
                ai_analyses_used := 7, projects_count := 1,
                automations_count := 0, customers_count := 30 }) =
      (true, some { organization_id := 1, emails_sent := 4, sms_sent := 2,
                    ai_analyses_used := 7, projects_count := 1,
                    automations_count := 0, customers_count := 30 }) := by
  exact (increment_usage_unknown_noop 1 "projects" 5
      (some { organization_id := 1, emails_sent := 4, sms_sent := 2,
              ai_analyses_used := 7, projects_count := 1,
              automations_count := 0, customers_count := 30 })
      (by decide) (by decide) (by decide)).2
    { organization_id := 1, emails_sent := 4, sms_sent := 2,
      ai_analyses_used := 7, projects_count := 1,
      automations_count := 0, customers_count := 30 } rfl

/-- C10: when the usage snapshot has no entry (or a zero entry) for the
requested key, `checkLimit` reads the current usage as 0: its result is
the same as on an empty snapshot, and the decision comes from
`projected = 0 + increment`. -/
theorem checkLimit_missing_usage (org : Organization)
    (usage : LimitKey → Option Int) (k : LimitKey) (inc : Int)
    (h : usage k = none ∨ usage k = some 0) :
    checkLimit org usage k inc = checkLimit org (fun _ => none) k inc := by
  rcases h with h | h <;> simp [checkLimit, h]

/-- C10 witness: a snapshot lacking a `projects` entry gives the same
result as the empty snapshot, and `checkLimit(freeOrg, {}, projects, 1)`
is Allowed. -/
theorem checkLimit_missing_usage_witness :
    checkLimit orgFreeNoTier (fun k => if k = .emails_monthly then some 7 else none)
        .projects 1 =
      checkLimit orgFreeNoTier (fun _ => none) .projects 1 ∧
    (checkLimit orgFreeNoTier (fun _ => none) .projects 1).allowed = true := by
  constructor
  · exact checkLimit_missing_usage orgFreeNoTier
      (fun k => if k = .emails_monthly then some 7 else none) .projects 1 (Or.inl rfl)
  · simp only [checkLimit, getUsagePercent_eval]
    decide

/-- Fixture: a usage snapshot whose only entry is `customers = n`. -/
def usageCustomers (n : Int) : LimitKey → Option Int :=
  fun k => if k = .customers then some n else none

/-- Fixture: a usage snapshot whose only entry is `projects = n`. -/
def usageProjects (n : Int) : LimitKey → Option Int :=
  fun k => if k = .projects then some n else none

/-- C2: when the resolved limit `L` is not `-1` and
`projected = current usage + increment`, `checkLimit` denies exactly when
`projected > L`; otherwise it allows, carrying a warning exactly when
`80 ≤ getUsagePercent projected L < 100` (`getUsagePercent` is
`round(projected / L * 100)` with `L = 0` read as 100 for positive usage
and 0 otherwise). -/
theorem checkLimit_threshold (org : Organization) (usage : LimitKey → Option Int)
    (k : LimitKey) (inc : Int)
    (hL : (getOrgLimits (some org)).get k ≠ -1) :
    ((checkLimit org usage k inc).allowed = false ↔
      (usage k).getD 0 + inc > (getOrgLimits (some org)).get k) ∧
    ((checkLimit org usage k inc).warning = some true ↔
      ((usage k).getD 0 + inc ≤ (getOrgLimits (some org)).get k ∧
        80 ≤ getUsagePercent ((usage k).getD 0 + inc) ((getOrgLimits (some org)).get k) ∧
        getUsagePercent ((usage k).getD 0 + inc) ((getOrgLimits (some org)).get k) < 100)) := by
  simp only [checkLimit]
  split_ifs with h1 h2 h3
  · exact absurd h1 hL
  · constructor
    · simp [h2]
    · constructor
      · intro hw
        simp at hw
      · rintro ⟨hle, -, -⟩
        omega
  · constructor
    · constructor
      · intro hw
        simp at hw
      · intro hgt
        omega
    · constructor
      · intro _
        exact ⟨by omega, h3.1, h3.2⟩
      · intro _
        rfl
  · constructor
    · constructor
      · intro hw
        simp at hw
      · intro hgt
        omega
    · constructor
      · intro hw
        simp at hw
      · rintro ⟨-, h80, h100⟩
        exact absurd ⟨h80, h100⟩ h3

/-- C2 witness: on the free plan (customers limit 100), used 79 with
increment 1 is Allowed with a warning (80 percent), and used 100 with
increment 1 is Denied. -/
theorem checkLimit_threshold_witness :
    (checkLimit orgFreeNoTier (usageCustomers 79) .customers 1).allowed = true ∧
    (checkLimit orgFreeNoTier (usageCustomers 79) .customers 1).warning = some true ∧
    (checkLimit orgFreeNoTier (usageCustomers 100) .customers 1).allowed = false := by
  have h79 := checkLimit_threshold orgFreeNoTier (usageCustomers 79) .customers 1 (by decide)
  have h100 := checkLimit_threshold orgFreeNoTier (usageCustomers 100) .customers 1 (by decide)
  refine ⟨?_, ?_, ?_⟩
  · cases hb : (checkLimit orgFreeNoTier (usageCustomers 79) .customers 1).allowed
    · exact absurd (h79.1.mp hb) (by decide)
    · rfl
  · refine h79.2.mpr ⟨by decide, ?_, ?_⟩
    · rw [getUsagePercent_eval]
      decide
    · rw [getUsagePercent_eval]
      decide
  · exact h100.1.mpr (by decide)

/-- C4 counterexample: on the free plan (projects limit 1), used 5 with
increment 1 is Denied, and the Denied result carries
`current = 5` — the pre-increment usage — not the projected `5 + 1`
the claim asserts. -/
theorem checkLimit_current_cex :
    (getOrgLimits (some orgFreeNoTier)).get .projects ≠ -1 ∧
    (checkLimit orgFreeNoTier (usageProjects 5) .projects 1).allowed = false ∧
    (checkLimit orgFreeNoTier (usageProjects 5) .projects 1).current = some 5 ∧
    (checkLimit orgFreeNoTier (usageProjects 5) .projects 1).current ≠
      some ((usageProjects 5 .projects).getD 0 + 1) := by
  refine ⟨?_, ?_, ?_, ?_⟩ <;> decide

/-- C4 amended: when the resolved limit is not `-1`, every result carries
`limit = resolved limit`; both Allowed results carry
`current = projected`, but the Denied result carries
`current = pre-increment usage`, not the projected value. -/
theorem checkLimit_result_fields (org : Organization) (usage : LimitKey → Option Int)
    (k : LimitKey) (inc : Int)
    (hL : (getOrgLimits (some org)).get k ≠ -1) :
    (checkLimit org usage k inc).limit = some ((getOrgLimits (some org)).get k) ∧
    ((checkLimit org usage k inc).allowed = true →
      (checkLimit org usage k inc).current = some ((usage k).getD 0 + inc)) ∧
    ((checkLimit org usage k inc).allowed = false →
      (checkLimit org usage k inc).current = some ((usage k).getD 0)) := by
  simp only [checkLimit]
  split_ifs with h1 h2 h3
  · exact absurd h1 hL
  · refine ⟨rfl, ?_, ?_⟩
    · intro h
      simp at h
    · intro _
      rfl
  · refine ⟨rfl, ?_, ?_⟩
    · intro _
      rfl
    · intro h
      simp at h
  · refine ⟨rfl, ?_, ?_⟩
    · intro _
      rfl
    · intro h
      simp at h

/-- C4 witness: the concrete Denied call of the counterexample carries
`limit = some 1` and `current = some 5`. -/
theorem checkLimit_result_fields_witness :
    (checkLimit orgFreeNoTier (usageProjects 5) .projects 1).limit = some 1 ∧
    (checkLimit orgFreeNoTier (usageProjects 5) .projects 1).current = some 5 := by
  have h := checkLimit_result_fields orgFreeNoTier (usageProjects 5) .projects 1 (by decide)
  refine ⟨h.1.trans (by decide), ?_⟩
  have hd : (checkLimit orgFreeNoTier (usageProjects 5) .projects 1).allowed = false := by
    decide
  exact (h.2.2 hd).trans (by decide)

/-- An appsumo tier outside 1..3 indexes nothing in the catalog. -/
theorem appsumoLookup_eq_none {t : Int} (h1 : t ≠ 1) (h2 : t ≠ 2) (h3 : t ≠ 3) :
    appsumoLookup t = none := by
  unfold appsumoLookup
  split <;> simp_all

/-- Fixture: a subscription organization with no `subscription_tier`. -/
def orgSubNoTier : Organization :=
  { id := 4
    plan_type := "subscription"
    appsumo_tier := none
    appsumo_codes := []
    subscription_tier := none
    stripe_customer_id := none
    plan_limits_override := none
    plan_changed_at := none }

/-- Fixture: an organization with an unrecognized `plan_type`. -/
def orgWeirdPlan : Organization :=
  { orgFreeNoTier with id := 5, plan_type := "enterprise-trial" }

/-- C7: limit resolution is total (no throw, by construction) with safe
defaults: a null organization resolves to the free limits; an
`appsumo_lifetime` org with a missing or invalid (outside 1..3)
`appsumo_tier` falls back to `PLAN_LIMITS.appsumo[1]`; a `subscription`
org with a missing `subscription_tier` falls back to growth; any other
`plan_type` resolves to the free limits. -/
theorem getPlanLimits_defaults :
    getOrgLimits none = PLAN_LIMITS_free ∧
    getPlanLimits none = PLAN_LIMITS_free ∧
    (∀ o : Organization, o.plan_type = "appsumo_lifetime" → o.appsumo_tier = none →
      getPlanLimits (some o) = PLAN_LIMITS_appsumo1) ∧
    (∀ o : Organization, ∀ t : Int, o.plan_type = "appsumo_lifetime" →
      o.appsumo_tier = some t → t ≠ 1 → t ≠ 2 → t ≠ 3 →
      getPlanLimits (some o) = PLAN_LIMITS_appsumo1) ∧
    (∀ o : Organization, o.plan_type = "subscription" → o.subscription_tier = none →
      getPlanLimits (some o) = PLAN_LIMITS_growth) ∧
    (∀ o : Organization, o.plan_type ≠ "appsumo_lifetime" → o.plan_type ≠ "subscription" →
      getPlanLimits (some o) = PLAN_LIMITS_free) := by
  refine ⟨rfl, rfl, ?_, ?_, ?_, ?_⟩
  · intro o hp ht
    simp [getPlanLimits, hp, ht]
  · intro o t hp ht h1 h2 h3
    simp [getPlanLimits, hp, ht, appsumoLookup_eq_none h1 h2 h3]
  · intro o hp ht
    simp [getPlanLimits, hp, ht]
  · intro o hp1 hp2
    simp [getPlanLimits, hp1, hp2]

/-- C7 witness: tier 7 (invalid) falls back to the tier-1 AppSumo limits;
a tierless subscription org gets growth; an unrecognized plan type gets
the free limits; a null org gets the free limits. -/
theorem getPlanLimits_defaults_witness :
    getOrgLimits none = PLAN_LIMITS_free ∧
    getPlanLimits (some (orgAppsumoTier 7)) = PLAN_LIMITS_appsumo1 ∧
    getPlanLimits (some orgSubNoTier) = PLAN_LIMITS_growth ∧
    getPlanLimits (some orgWeirdPlan) = PLAN_LIMITS_free := by
  refine ⟨getPlanLimits_defaults.1, ?_, ?_, ?_⟩
  · exact getPlanLimits_defaults.2.2.2.1 (orgAppsumoTier 7) 7 rfl rfl
      (by decide) (by decide) (by decide)
  · exact getPlanLimits_defaults.2.2.2.2.1 orgSubNoTier rfl rfl
  · exact getPlanLimits_defaults.2.2.2.2.2 orgWeirdPlan (by decide) (by decide)

/-- C8: for an `appsumo_lifetime` org with valid tier `t ∈ {1,2,3}`,
resolution returns exactly the catalog's `appsumo[t]` entry when no
override is present, and that entry shallow-merged with the override
otherwise — key by key, an overridden key takes the override's value
and every other key keeps the catalog value. The catalog constants are
plain immutable definitions, so the merge cannot modify them. -/
theorem getOrgLimits_appsumo_merge (o : Organization) (t : Int)
    (hp : o.plan_type = "appsumo_lifetime") (ht : o.appsumo_tier = some t)
    (htv : t = 1 ∨ t = 2 ∨ t = 3) :
    ∃ base : PlanLimits, appsumoLookup t = some base ∧
      (o.plan_limits_override = none → getOrgLimits (some o) = base) ∧
      (∀ ov : LimitsOverride, o.plan_limits_override = some ov →
        getOrgLimits (some o) = mergeOverride base ov ∧
        ∀ k : LimitKey, (getOrgLimits (some o)).get k =
          (ov.get k).getD (base.get k)) := by
  rcases htv with rfl | rfl | rfl
  all_goals
    refine ⟨_, rfl, ?_, ?_⟩
  all_goals
    first
    | · intro hov
        simp [getOrgLimits, getPlanLimits, hp, ht, hov, appsumoLookup]
    | · intro ov hov
        refine ⟨?_, fun k => ?_⟩
        · simp [getOrgLimits, getPlanLimits, hp, ht, hov, appsumoLookup]
        · simp [getOrgLimits, getPlanLimits, hp, ht, hov, appsumoLookup, mergeOverride_get]

/-- Fixture: an override raising only the projects limit. -/
def ovProjects999 : LimitsOverride := { projects := some 999 }

/-- Fixture: a tier-2 AppSumo organization carrying that override. -/
def orgAppsumo2Ov : Organization :=
  { orgAppsumoTier 2 with plan_limits_override := some ovProjects999 }

/-- C8 witness: with the projects-only override on a tier-2 org, the
resolved limits are the tier-2 entry merged with the override; the
overridden key reads 999 and an untouched key keeps the tier-2 value. -/
theorem getOrgLimits_appsumo_merge_witness :
    getOrgLimits (some orgAppsumo2Ov) = mergeOverride PLAN_LIMITS_appsumo2 ovProjects999 ∧
    (getOrgLimits (some orgAppsumo2Ov)).get .projects = 999 ∧
    (getOrgLimits (some orgAppsumo2Ov)).get .automations = 30 := by
  obtain ⟨base, hb, -, hsome⟩ :=
    getOrgLimits_appsumo_merge orgAppsumo2Ov 2 rfl rfl (Or.inr (Or.inl rfl))
  obtain ⟨hm, hk⟩ := hsome ovProjects999 rfl
  have hbase : base = PLAN_LIMITS_appsumo2 := by
    have : (some PLAN_LIMITS_appsumo2 : Option PlanLimits) = some base := hb
    exact (Option.some.inj this).symm
  refine ⟨?_, ?_, ?_⟩
  · rw [hm, hbase]
  · rw [hk .projects, hbase]
    decide
  · rw [hk .automations, hbase]
    decide

/-- Fixture: a subscription organization on the growth tier. -/
def orgSubGrowth : Organization :=
  { id := 7
    plan_type := "subscription"
    appsumo_tier := none
    appsumo_codes := []
    subscription_tier := some "growth"
    stripe_customer_id := none
    plan_limits_override := none
    plan_changed_at := some 1 }

/-- C3: the spec's organization-state invariant (exactly one of
`subscription_tier` / `appsumo_tier` non-null, matching `plan_type`) is
NOT preserved by redemption: a subscription org with
`subscription_tier = growth` satisfies the invariant, a tier-1 code is
redeemed successfully, but `redeem_appsumo_code` never clears
`subscription_tier`, so the resulting org has both tiers non-null and
violates the invariant. -/
theorem redeem_breaks_invariant :
    orgInvariant orgSubGrowth = true ∧
    (redeem_appsumo_code { codes := [codeT1], org := orgSubGrowth }
        "AUTOMATA-TEST-T1-001" 2).1.resultTier = some 1 ∧
    (redeem_appsumo_code { codes := [codeT1], org := orgSubGrowth }
        "AUTOMATA-TEST-T1-001" 2).2.org.subscription_tier = some "growth" ∧
    (redeem_appsumo_code { codes := [codeT1], org := orgSubGrowth }
        "AUTOMATA-TEST-T1-001" 2).2.org.appsumo_tier = some 1 ∧
    orgInvariant (redeem_appsumo_code { codes := [codeT1], org := orgSubGrowth }
        "AUTOMATA-TEST-T1-001" 2).2.org = false := by
  refine ⟨?_, ?_, ?_, ?_, ?_⟩ <;> decide

/-- Fixture: the tier-1 code row after someone redeemed it. -/
def codeT1Redeemed : CodeRecord :=
  { codeT1 with is_redeemed := true, redeemed_by_org_id := some 9, redeemed_at := some 5 }

/-- C6 counterexample: `check_appsumo_code` on a store without the code
and on a store where the code exists but is redeemed agrees on the
`valid` and `tier` fields, yet the two results differ (the `error`
strings `Code not found` and `Code already redeemed` distinguish them),
so an observer CAN tell a nonexistent code from an existing-but-invalid
one beyond validity/tier. -/
theorem checkCode_leak_cex :
    ((check_appsumo_code { codes := [], org := orgFreeNoTier }
        "AUTOMATA-TEST-T1-001").1.valid =
      (check_appsumo_code { codes := [codeT1Redeemed], org := orgFreeNoTier }
        "AUTOMATA-TEST-T1-001").1.valid) ∧
    ((check_appsumo_code { codes := [], org := orgFreeNoTier }
        "AUTOMATA-TEST-T1-001").1.tier =
      (check_appsumo_code { codes := [codeT1Redeemed], org := orgFreeNoTier }
        "AUTOMATA-TEST-T1-001").1.tier) ∧
    (check_appsumo_code { codes := [], org := orgFreeNoTier }
        "AUTOMATA-TEST-T1-001").1 ≠
      (check_appsumo_code { codes := [codeT1Redeemed], org := orgFreeNoTier }
        "AUTOMATA-TEST-T1-001").1 := by
  refine ⟨?_, ?_, ?_⟩ <;> decide

/-- C6 amended: `check_appsumo_code` never mutates the store (no
`is_redeemed` change, no organization change), and its result is a
function of the lookup view (existence, `is_redeemed`, tier) alone — it
exposes no other code metadata (id, redeemer, timestamps, notes) — but
its `error` string does distinguish a nonexistent code from an
already-redeemed one. -/
theorem checkCode_readonly_view (s : Store) (c : String) :
    (check_appsumo_code s c).2 = s ∧
    (∀ s' : Store, ∀ c' : String, codeView s c = codeView s' c' →
      (check_appsumo_code s c).1 = (check_appsumo_code s' c').1) := by
  constructor
  · rcases h : findCode s.codes c with _ | r
    · simp [check_appsumo_code, h]
    · by_cases hr : r.is_redeemed <;> simp [check_appsumo_code, h, hr]
  · intro s' c' hv
    unfold codeView at hv
    rcases h : findCode s.codes c with _ | r <;>
      rcases h' : findCode s'.codes c' with _ | r' <;>
        rw [h, h'] at hv <;> simp at hv
    · simp [check_appsumo_code, h, h']
    · obtain ⟨hred, htier⟩ := hv
      by_cases hr : r.is_redeemed <;>
        simp [check_appsumo_code, h, h', hr, ← hred, ← htier]

/-- C6 witness: two stores whose rows for the same code agree on
existence, `is_redeemed` and tier but differ in id, notes and redeemer
metadata get identical results, and the first store is untouched. -/
theorem checkCode_readonly_view_witness :
    (check_appsumo_code { codes := [codeT1], org := orgFreeNoTier }
        "AUTOMATA-TEST-T1-001").2 =
      { codes := [codeT1], org := orgFreeNoTier } ∧
    (check_appsumo_code { codes := [codeT1], org := orgFreeNoTier }
        "AUTOMATA-TEST-T1-001").1 =
      (check_appsumo_code
        { codes := [{ codeT1 with id := 99, notes := none }], org := orgSubGrowth }
        "AUTOMATA-TEST-T1-001").1 := by
  refine ⟨(checkCode_readonly_view { codes := [codeT1], org := orgFreeNoTier }
    "AUTOMATA-TEST-T1-001").1, ?_⟩
  exact (checkCode_readonly_view { codes := [codeT1], org := orgFreeNoTier }
    "AUTOMATA-TEST-T1-001").2
    { codes := [{ codeT1 with id := 99, notes := none }], org := orgSubGrowth }
    "AUTOMATA-TEST-T1-001" (by decide)
